import Mathlib

/-!
Shallow embedding of the GLAS laboratory-workflow orchestrator core
(src/nodes/base.py, src/task/core.py, src/orchestrator/base.py and the
enumerations in src/nodes/enums.py, src/task/enums.py,
src/orchestrator/enums.py).

Database writes, log records and condition-variable signals are modelled as
an explicit effect trace (the spec treats the relational store as an
append/update sink).  User-supplied node hooks (`_execute`, `_restart`,
`_shutdown`, `is_reachable`, `next_node_execution`) are modelled as data on
the node: a list of successive results consumed per invocation, with the
default result of the base class used once the list is exhausted.
-/

namespace Glas

/-- Node states, from src/nodes/enums.py (class NodeState). -/
inductive NodeState where
  | AVAILABLE
  | IN_USE
  | RECOVERY
  | OFFLINE
  | ERROR
  | RESTARTING
deriving DecidableEq

/-- Recovery advance policy, from src/nodes/enums.py (class NodeErrorNextStep):
SELF = 0 redoes the current node, NEXT = 1 goes to the next one. -/
inductive NodeErrorNextStep where
  | SELF
  | NEXT
deriving DecidableEq

/-- The numeric value of the policy, used as an integer step offset. -/
def NodeErrorNextStep.val : NodeErrorNextStep → Nat
  | .SELF => 0
  | .NEXT => 1

/-- Task states, from src/task/enums.py (class TaskState).  The enum has
exactly these four members; there is no PAUSED member. -/
inductive TaskState where
  | PENDING
  | ACTIVE
  | FINISHED
  | ERROR
deriving DecidableEq

/-- Python attribute lookup on the TaskState enum class: exactly the members
declared in src/task/enums.py resolve; anything else is an AttributeError. -/
def TaskState.attr : String → Option TaskState
  | "PENDING" => some .PENDING
  | "ACTIVE" => some .ACTIVE
  | "FINISHED" => some .FINISHED
  | "ERROR" => some .ERROR
  | _ => none

/-- Orchestrator states, from src/orchestrator/enums.py. -/
inductive OrchestratorState where
  | STOPPED
  | RUNNING
  | ERROR
deriving DecidableEq

/-- Orchestrator error codes, from src/orchestrator/enums.py. -/
inductive OrchestratorErrorCodes where
  | OK
  | CANCELLED
  | COULD_NOT_FIND_CONFIGURATION
  | COULD_NOT_PARSE_CONFIGURATION
  | DATABASE_CONNECTION_REFUSED
  | CONTENT_NOT_FOUND
  | CONTINUE_TASK_FAILED
  | RESTART_NODE_FAILED
deriving DecidableEq

/-- Python runtime failures that the embedded code can raise. -/
inductive PyErr where
  | attributeError (obj attr : String)
deriving DecidableEq

/-- Observable side effects: database writes, record inserts, the execution
log samples, and condition-variable notifications. -/
inductive Effect where
  | dbNodeState (nodeId : String) (st : NodeState)
  | nodeCallRecord (nodeId : String) (endpoint message : Option String) (outcome : String)
  | execRecord (taskId : String) (wfId : Int) (label : String)
  | dbTaskSetActive (uuid : String)
  | dbTaskSetError (uuid : String)
  | dbTaskSetFinished (uuid : String)
  | dbUpdateActiveStep (uuid : String) (nodeId : String)
  | gateAcquire (nodeId : String)
  | gateRelease (nodeId : String)
  | hookShutdown (nodeId : String)
  | notifyCond
deriving DecidableEq

/-- Result of one invocation of a node's user action `_execute`:
status, optional message, optional endpoint. -/
abbrev ExecResult := Int × Option String × Option String

/-- A GLAS node (src/nodes/base.py, class BaseNode).  The user-supplied hooks
are modelled as data: `reachable` is the result of the `is_reachable` hook,
`results` the successive results of `_execute` (default `(0, none, none)`
when exhausted, matching the base implementation), `restartResults` the
successive statuses of `_restart` (default 0), `shutdownResults` those of
`_shutdown` (default 0), and `policy` the result of `next_node_execution`
(default NEXT in the base class).  `calls` and `restarts` count hook
invocations. -/
structure Node where
  id : String
  name : String
  state : NodeState
  taskId : Option String
  reachable : Bool
  results : List ExecResult
  calls : Nat
  restartResults : List Int
  restarts : Nat
  shutdownResults : List Int
  policy : NodeErrorNextStep
deriving DecidableEq

instance : Inhabited Node :=
  ⟨{ id := "", name := "", state := .AVAILABLE, taskId := none, reachable := true,
     results := [], calls := 0, restartResults := [], restarts := 0,
     shutdownResults := [], policy := .NEXT }⟩

/-- BaseNode.is_reachable: the user hook (default True). -/
def Node.is_reachable (n : Node) : Bool := n.reachable

/-- BaseNode.is_error (src/nodes/base.py line 212). -/
def Node.is_error (n : Node) : Bool := n.state == .ERROR

/-- BaseNode.is_usable (src/nodes/base.py line 167):
`self.is_reachable() and not self.is_error()`. -/
def Node.is_usable (n : Node) : Bool := n.is_reachable && !n.is_error

/-- BaseNode.execute (src/nodes/base.py lines 104-160).  Returns the
`(status, message)` pair, the node after the call, and the effect trace.
The gate (`with self.mu`) is entered at the start and released on every
exit path; the two `LoggingManager.insert_data_sample` calls are the
`"w. acc."` and node-labelled execution records. -/
def Node.execute (n : Node) (taskId : String) (wfId : Int) (save : Bool := true) :
    (Int × Option String) × Node × List Effect :=
  let waitEff : List Effect := if save then [.execRecord taskId wfId "w. acc."] else []
  let n1 : Node := { n with taskId := some taskId, state := .IN_USE }
  let preEff : List Effect :=
    [.gateAcquire n.id] ++ waitEff ++ [.dbNodeState n.id .IN_USE]
  let r : ExecResult := n1.results.headD (0, none, none)
  let n2 : Node := { n1 with results := n1.results.tail, calls := n1.calls + 1 }
  let status := r.1
  let message := r.2.1
  let endpoint := r.2.2
  if status != 0 then
    let n3 : Node := { n2 with state := .ERROR, taskId := none }
    ((status, message), n3,
      preEff ++ [.dbNodeState n.id .ERROR,
                 .nodeCallRecord n.id endpoint message "error",
                 .gateRelease n.id])
  else
    let n3 : Node := { n2 with state := .AVAILABLE, taskId := none }
    ((0, none), n3,
      preEff ++ [.nodeCallRecord n.id endpoint message "success",
                 .dbNodeState n.id .AVAILABLE]
             ++ (if save then [.execRecord taskId wfId n.id] else [])
             ++ [.gateRelease n.id])

/-- BaseNode.restart (src/nodes/base.py lines 177-195): run the `_restart`
hook; on status 0 set the state to AVAILABLE, otherwise leave it; then
persist the current state. -/
def Node.restart (n : Node) : Int × Node × List Effect :=
  let status := n.restartResults.headD 0
  let n1 : Node := { n with restartResults := n.restartResults.tail, restarts := n.restarts + 1 }
  let n2 : Node := if status == 0 then { n1 with state := .AVAILABLE } else n1
  (status, n2, [.dbNodeState n2.id n2.state])

/-- BaseNode.shutdown (src/nodes/base.py lines 197-210): run the `_shutdown`
hook, then persist OFFLINE as the node's database state.  The in-memory
`state` field is not assigned. -/
def Node.shutdown (n : Node) : Node × List Effect :=
  let _status := n.shutdownResults.headD 0
  let n1 : Node := { n with shutdownResults := n.shutdownResults.tail }
  (n1, [.hookShutdown n.id, .dbNodeState n.id .OFFLINE])

/-- A workflow (src/workflow/core.py): identity plus the ordered steps.
The constructor rejects fewer than two steps; that precondition appears as
a hypothesis where a theorem needs it. -/
structure Workflow where
  id : Int
  name : String
  steps : List Node
deriving DecidableEq

instance : Inhabited Workflow := ⟨{ id := 0, name := "", steps := [] }⟩

/-- A task (src/task/core.py, class Task).  `currentStep` is an integer
initialised to -1 in `__init__`; `pauseEvent` is the pause latch
(`threading.Event`), `stopFlag` the cancellation flag. -/
structure Task where
  uuid : String
  workflow : Workflow
  state : TaskState
  stopFlag : Bool
  currentStep : Int
  pauseEvent : Bool
deriving DecidableEq

instance : Inhabited Task :=
  ⟨{ uuid := "", workflow := default, state := .PENDING, stopFlag := false,
     currentStep := -1, pauseEvent := false }⟩

/-- Python list slicing `xs[i:]`: a non-negative start drops `i` elements, a
negative start begins at `max (len + i) 0`. -/
def pySuffix (xs : List α) (i : Int) : List α :=
  if 0 ≤ i then xs.drop i.toNat else xs.drop ((xs.length + i).toNat)

/-- Task.set_active (src/task/core.py lines 68-70). -/
def Task.setActive (t : Task) : Task × List Effect :=
  ({ t with state := .ACTIVE }, [.dbTaskSetActive t.uuid])

/-- Task.set_pending (src/task/core.py lines 72-73): no database write. -/
def Task.setPending (t : Task) : Task := { t with state := .PENDING }

/-- Task.set_finished (src/task/core.py lines 75-77). -/
def Task.setFinished (t : Task) : Task × List Effect :=
  ({ t with state := .FINISHED }, [.dbTaskSetFinished t.uuid])

/-- Task.set_error (src/task/core.py lines 79-81). -/
def Task.setError (t : Task) : Task × List Effect :=
  ({ t with state := .ERROR }, [.dbTaskSetError t.uuid])

/-- The classmethods defined on DBTask in src/database/tasks.py. -/
def dbTaskMethods : List String :=
  ["get", "exists", "purge", "insert", "delete", "update_active_step",
   "get_current_week", "get_last_week", "get_last_vs_current_week_percentage",
   "set_active", "set_error", "set_finished"]

/-- Task.set_paused (src/task/core.py lines 83-85): the body first calls
`DBTask.set_paused(...)` — no such classmethod exists on DBTask, so the
attribute lookup raises — and would then assign
`self._state = TaskState.PAUSED`, which also names a member absent from the
TaskState enum of src/task/enums.py. -/
def Task.setPaused (t : Task) : Except PyErr (Task × List Effect) :=
  if "set_paused" ∈ dbTaskMethods then
    match TaskState.attr "PAUSED" with
    | some s => .ok ({ t with state := s }, [])
    | none => .error (.attributeError "TaskState" "PAUSED")
  else
    .error (.attributeError "DBTask" "set_paused")

/-- Task.any_unreachable_node (src/task/core.py lines 87-98): filter the
slice `steps[self._current_step:]` by `not step.is_reachable()` and return
whether the resulting id list is non-empty, together with the ids. -/
def Task.anyUnreachableNode (t : Task) : Bool × List String :=
  let unreachableSteps := (pySuffix t.workflow.steps t.currentStep).filter
    (fun step => !step.is_reachable)
  let unreachableIds := unreachableSteps.map (·.id)
  (unreachableIds.length > 0, unreachableIds)

/-- Task.stop (src/task/core.py lines 100-103): set the stop flag and clear
the pause event (the body clears it twice; clearing twice equals clearing
once).  No notification is performed on the pause condition. -/
def Task.stop (t : Task) : Task :=
  { t with stopFlag := true, pauseEvent := false }

/-- Task.pause_execution (src/task/core.py lines 105-118): calls
`self.set_paused()` first, which raises, so the latch is never set and 0 is
never returned. -/
def Task.pauseExecution (t : Task) : Except PyErr (Int × Task × List Effect) := do
  let (t1, eff) ← t.setPaused
  .ok (0, { t1 with pauseEvent := true }, eff)

/-- The per-step loop of Task.continue_execution (src/task/core.py lines
129-134): restart every node whose state is ERROR or RECOVERY, returning
early with the first non-zero restart status. -/
def restartSteps : List Node → List Node × Option Int × List Effect
  | [] => ([], none, [])
  | n :: rest =>
    if n.state = .ERROR ∨ n.state = .RECOVERY then
      let r := n.restart
      if r.1 ≠ 0 then (r.2.1 :: rest, some r.1, r.2.2)
      else
        let rec1 := restartSteps rest
        (r.2.1 :: rec1.1, rec1.2.1, r.2.2 ++ rec1.2.2)
    else
      let rec1 := restartSteps rest
      (n :: rec1.1, rec1.2.1, rec1.2.2)

/-- Task.continue_execution (src/task/core.py lines 120-142): restart the
ERROR/RECOVERY nodes (early return on failure); on success set the task
active, clear the pause event and notify the pause condition. -/
def Task.continueExecution (t : Task) : Int × Task × List Effect :=
  let rs := restartSteps t.workflow.steps
  let t1 : Task := { t with workflow := { t.workflow with steps := rs.1 } }
  match rs.2.1 with
  | some status => (status, t1, rs.2.2)
  | none =>
    let sa := t1.setActive
    (0, { sa.1 with pauseEvent := false }, rs.2.2 ++ sa.2 ++ [.notifyCond])

/-- errno.EINTR. -/
def EINTR : Int := 4

/-- errno.EHOSTUNREACH. -/
def EHOSTUNREACH : Int := 113

/-- Task._recursion_exit (src/task/core.py lines 144-165).  Note that it
runs before `self._current_step` is updated to `step_id`, so the
reachability slice still starts at the previous step index. -/
def Task.recursionExit (t : Task) (stepId : Nat) : Option Int × Task × List Effect :=
  if t.stopFlag then
    let se := t.setError
    (some EINTR, se.1, se.2)
  else if (t.anyUnreachableNode).1 then
    let se := t.setError
    (some EHOSTUNREACH, se.1, se.2)
  else if t.state == .ERROR then (some 1, t, [])
  else if t.workflow.steps.length ≤ stepId then (some 0, t, [])
  else (none, t, [])

/-- An operator action issued while the worker is parked on the pause
condition: Task.stop or Task.continue_execution. -/
inductive OpEvent where
  | opStop
  | opContinue
deriving DecidableEq

/-- The worker's `while self._pause_event.is_set(): self._pause_condition.wait()`
loop (src/task/core.py lines 206-209), interacting with operator actions.
`wait()` returns only when the condition is notified; `Task.stop` performs
no notification, and `continue_execution` notifies only on success (its
failure path returns before the notify).  Returns whether the worker woke
(exited the loop), the task, the remaining schedule, and the effects. -/
def parkWait : Task → List OpEvent → Bool × Task × List OpEvent × List Effect
  | t, [] => (false, t, [], [])
  | t, .opStop :: rest => parkWait t.stop rest
  | t, .opContinue :: rest =>
    let ce := t.continueExecution
    if ce.1 ≠ 0 then
      let pw := parkWait ce.2.1 rest
      (pw.1, pw.2.1, pw.2.2.1, ce.2.2 ++ pw.2.2.2)
    else
      (true, ce.2.1, rest, ce.2.2)

/-- Outcome of the recursive step loop. -/
inductive RunOutcome where
  | ret (code : Int)
  | parkedForever
  | fuelOut
deriving DecidableEq

/-- Task._run (src/task/core.py lines 174-214), fuel-indexed.  Returns the
outcome, the task, the unconsumed operator schedule, the list of step
indices on which `execute` was invoked (in invocation order), and the
effect trace. -/
def Task.runAux : Nat → Task → Nat → List OpEvent →
    RunOutcome × Task × List OpEvent × List Nat × List Effect
  | 0, t, _, sched => (.fuelOut, t, sched, [], [])
  | fuel + 1, t, stepId, sched =>
    let re := t.recursionExit stepId
    match re.1 with
    | some code => (.ret code, re.2.1, sched, [], re.2.2)
    | none =>
      let cur := t.workflow.steps.getD stepId default
      let ex := cur.execute t.uuid t.workflow.id true
      let cur1 := ex.2.1
      let effStep : List Effect := Effect.dbUpdateActiveStep t.uuid cur.id :: ex.2.2
      let t3 : Task :=
        { t with currentStep := (stepId : Int),
                 workflow := { t.workflow with steps := t.workflow.steps.set stepId cur1 } }
      let t4 : Task :=
        if ex.1.1 ≠ 0 then { t3 with state := .ERROR, pauseEvent := true } else t3
      let effErr : List Effect := if ex.1.1 ≠ 0 then [.dbTaskSetError t.uuid] else []
      if t4.pauseEvent then
        let pw := parkWait t4 sched
        if pw.1 then
          let rec1 := Task.runAux fuel pw.2.1 (stepId + cur1.policy.val) pw.2.2.1
          (rec1.1, rec1.2.1, rec1.2.2.1, stepId :: rec1.2.2.2.1,
            effStep ++ effErr ++ pw.2.2.2 ++ rec1.2.2.2.2)
        else
          (.parkedForever, pw.2.1, pw.2.2.1, [stepId], effStep ++ effErr ++ pw.2.2.2)
      else
        let rec1 := Task.runAux fuel t4 (stepId + 1) sched
        (rec1.1, rec1.2.1, rec1.2.2.1, stepId :: rec1.2.2.2.1,
          effStep ++ effErr ++ rec1.2.2.2.2)

/-- Task.run (src/task/core.py lines 216-237): reset the stop flag, set the
task pending then active, run the step loop from index 0, and on status 0
set the task finished. -/
def Task.runMain (t : Task) (fuel : Nat) (sched : List OpEvent) :
    RunOutcome × Task × List Nat × List Effect :=
  let t1 : Task := { t with stopFlag := false }
  let t2 := t1.setPending
  let sa := t2.setActive
  let r := Task.runAux fuel sa.1 0 sched
  match r.1 with
  | .ret code =>
    if code == 0 then
      let sf := r.2.1.setFinished
      (.ret code, sf.1, r.2.2.2.1, sa.2 ++ r.2.2.2.2 ++ sf.2)
    else (.ret code, r.2.1, r.2.2.2.1, sa.2 ++ r.2.2.2.2)
  | o => (o, r.2.1, r.2.2.2.1, sa.2 ++ r.2.2.2.2)

/-- The orchestrator (src/orchestrator/base.py, class BaseOrchestrator):
state, terminate event, the node and workflow registries, and the
running-task list. -/
structure Orchestrator where
  state : OrchestratorState
  terminateEvent : Bool
  nodes : List Node
  workflows : List Workflow
  runningTasks : List Task
deriving DecidableEq

instance : Inhabited Orchestrator :=
  ⟨{ state := .STOPPED, terminateEvent := false, nodes := [], workflows := [],
     runningTasks := [] }⟩

/-- The outcome of one invocation of an abstract factory (`_load_nodes` or
`_load_workflows`): the items it appends to the (already cleared) registry
list, and the error code it returns.  The factories are abstract methods of
BaseOrchestrator; the spec treats them as opaque constructors. -/
structure FactoryResult (α : Type) where
  items : List α
  code : OrchestratorErrorCodes
deriving DecidableEq

/-- BaseOrchestrator._set_error (src/orchestrator/base.py lines 165-168). -/
def Orchestrator.setErrorState (o : Orchestrator) : Orchestrator :=
  { o with state := .ERROR }

/-- BaseOrchestrator.load_config (src/orchestrator/base.py lines 170-223):
clear the node list, run the node factory, and on failure set the state to
ERROR and return its code (the workflow list is untouched on this path);
then clear the workflow list, run the workflow factory, and on failure set
the state to ERROR and return its code; otherwise return OK. -/
def Orchestrator.loadConfig (o : Orchestrator)
    (nodeFactory : FactoryResult Node) (workflowFactory : FactoryResult Workflow) :
    OrchestratorErrorCodes × Orchestrator :=
  let o1 : Orchestrator := { o with nodes := nodeFactory.items }
  if nodeFactory.code != .OK then
    (nodeFactory.code, o1.setErrorState)
  else
    let o2 : Orchestrator := { o1 with workflows := workflowFactory.items }
    if workflowFactory.code != .OK then
      (workflowFactory.code, o2.setErrorState)
    else
      (.OK, o2)

/-- BaseOrchestrator.start (src/orchestrator/base.py lines 225-251):
if already RUNNING return CANCELLED; clear the terminate event; if the
database connectivity check fails return DATABASE_CONNECTION_REFUSED (no
state assignment on this path); if load_config fails set the state to ERROR
and return its code; otherwise set the state to RUNNING and return OK
(the start callback then runs). -/
def Orchestrator.start (o : Orchestrator) (dbConnected : Bool)
    (nodeFactory : FactoryResult Node) (workflowFactory : FactoryResult Workflow) :
    OrchestratorErrorCodes × Orchestrator :=
  if o.state == .RUNNING then (.CANCELLED, o)
  else
    let o1 : Orchestrator := { o with terminateEvent := false }
    if !dbConnected then (.DATABASE_CONNECTION_REFUSED, o1)
    else
      let (code, o2) := o1.loadConfig nodeFactory workflowFactory
      if code != .OK then (code, o2.setErrorState)
      else (.OK, { o2 with state := .RUNNING })

/-- Shutdown every node in order, returning the shut-down nodes and the
concatenated effect traces (the node loop of BaseOrchestrator.stop). -/
def shutdownAll : List Node → List Node × List Effect
  | [] => ([], [])
  | n :: rest =>
    let s := n.shutdown
    let rec1 := shutdownAll rest
    (s.1 :: rec1.1, s.2 ++ rec1.2)

/-- BaseOrchestrator.stop (src/orchestrator/base.py lines 253-287): if
already STOPPED return CANCELLED; otherwise set the terminate event, call
Task.stop on every running task, join the workers, clear the running-task
list, shut every node down, clear both registries, and set the state to
STOPPED. -/
def Orchestrator.stop (o : Orchestrator) : OrchestratorErrorCodes × Orchestrator × List Effect :=
  if o.state == .STOPPED then (.CANCELLED, o, [])
  else
    let o1 : Orchestrator :=
      { o with terminateEvent := true, runningTasks := o.runningTasks.map Task.stop }
    let o2 : Orchestrator := { o1 with runningTasks := [] }
    let sd := shutdownAll o2.nodes
    let o3 : Orchestrator := { o2 with nodes := [], workflows := [], state := .STOPPED }
    (.OK, o3, sd.2)

end Glas

namespace Glas

/-- A freshly constructed node, mirroring BaseNode.__init__: state AVAILABLE,
no current task, the default hooks. -/
def mkNode (i nm : String) : Node :=
  { id := i, name := nm, state := .AVAILABLE, taskId := none, reachable := true,
    results := [], calls := 0, restartResults := [], restarts := 0,
    shutdownResults := [], policy := .NEXT }

/-- A fresh task over the given workflow, mirroring Task.__init__:
state PENDING, current step -1, flags cleared. -/
def mkTask (u : String) (wf : Workflow) : Task :=
  { uuid := u, workflow := wf, state := .PENDING, stopFlag := false,
    currentStep := -1, pauseEvent := false }

/-- A node whose default action always succeeds. -/
def nodeA : Node := mkNode "a" "A"

/-- A reachable node sitting in the ERROR state (unusable, yet reachable). -/
def nodeBerr : Node := { mkNode "b" "B" with state := .ERROR }

/-- A two-step workflow whose second node is in the ERROR state. -/
def taskT1 : Task := mkTask "t1" { id := 1, name := "w", steps := [nodeA, nodeBerr] }

/-- A node whose first action invocation fails and whose recovery policy is
SELF (redo the step). -/
def nodeBSelf : Node :=
  { mkNode "b" "B" with results := [(42, some "jam", some "/grip")], policy := .SELF }

/-- A two-step workflow whose second step fails once and retries itself. -/
def taskT3 : Task := mkTask "t3" { id := 3, name := "w3", steps := [nodeA, nodeBSelf] }

/-- A node whose first action invocation fails, default NEXT policy. -/
def nodeBFail : Node := { mkNode "b" "B" with results := [(42, some "jam", some "/grip")] }

/-- A two-step workflow whose second step fails once. -/
def taskT4 : Task := mkTask "t4" { id := 4, name := "w4", steps := [nodeA, nodeBFail] }

/-- Unreachable-future-step set written exactly as the specification words
it: the ids of the steps at indices j ≥ i whose `is_usable()` is false.
Stated for comparison with Task.anyUnreachableNode, which the source
implements differently. -/
def specUnreachableIds (steps : List Node) (i : Nat) : List String :=
  ((steps.drop i).filter (fun s => !s.is_usable)).map (·.id)

/-- Every result the node's user action will ever produce has status 0 (the
default action of the base class also does). -/
def Node.alwaysSucceeds (n : Node) : Prop := ∀ r ∈ n.results, r.1 = 0

/-- Recognizer for node-call-record effects with the given outcome. -/
def isCallRecord (outcome : String) : Effect → Bool
  | .nodeCallRecord _ _ _ oc => oc == outcome
  | _ => false

/-- Recognizer for execution-record effects. -/
def isExecRecordEff : Effect → Bool
  | .execRecord _ _ _ => true
  | _ => false

/-- The pointwise contract of the continue_execution restart loop when no
restart fails: an ERROR/RECOVERY node has had its restart hook invoked once
more, any other node is untouched. -/
def RestartedRel (a b : Node) : Prop :=
  ((a.state = .ERROR ∨ a.state = .RECOVERY) → b.restarts = a.restarts + 1) ∧
  (¬(a.state = .ERROR ∨ a.state = .RECOVERY) → b = a)

/-- A two-step workflow whose steps all succeed. -/
def taskHappy : Task := mkTask "th" { id := 7, name := "wh", steps := [nodeA, mkNode "b" "B"] }

/-- A parked task: its second node is in ERROR, the task state is ERROR and
the pause latch is set (the situation right after a step failure). -/
def taskT8 : Task :=
  { mkTask "t8" { id := 8, name := "w8", steps := [nodeA, nodeBerr] } with
    state := .ERROR, pauseEvent := true }

/-- A parked task one of whose ERROR nodes refuses to restart. -/
def taskT9 : Task :=
  { mkTask "t9" { id := 9, name := "w9", steps := [nodeA, { nodeBerr with restartResults := [7] }] } with
    state := .ERROR, pauseEvent := true }

/-- A running orchestrator with one registered node. -/
def oRun : Orchestrator :=
  { state := .RUNNING, terminateEvent := false, nodes := [mkNode "a" "A"],
    workflows := [], runningTasks := [] }

/-- A previously loaded workflow, for the reload scenarios. -/
def oldWf : Workflow :=
  { id := 9, name := "wOld", steps := [mkNode "o1" "O1", mkNode "o2" "O2"] }

/-- An orchestrator still holding a previously loaded configuration. -/
def oPrev : Orchestrator :=
  { state := .RUNNING, terminateEvent := false, nodes := [mkNode "old" "Old"],
    workflows := [oldWf], runningTasks := [] }

/-- A node factory that appends one node and then reports a parse failure. -/
def nfFail : FactoryResult Node := ⟨[mkNode "n1" "N1"], .COULD_NOT_PARSE_CONFIGURATION⟩

/-- A node factory that appends one node and succeeds. -/
def nfOk : FactoryResult Node := ⟨[mkNode "n1" "N1"], .OK⟩

/-- A workflow factory that appends one workflow and succeeds. -/
def wfFacOk : FactoryResult Workflow := ⟨[oldWf], .OK⟩

/-- A workflow factory that fails without appending anything. -/
def wfFacFail : FactoryResult Workflow := ⟨[], .COULD_NOT_FIND_CONFIGURATION⟩

end Glas

namespace Glas

theorem shutdownAll_mem {ns : List Node} {m : Node} (hm : m ∈ ns) :
    Effect.hookShutdown m.id ∈ (shutdownAll ns).2 ∧
    Effect.dbNodeState m.id .OFFLINE ∈ (shutdownAll ns).2 := by
  induction ns with
  | nil => cases hm
  | cons n rest ih =>
    have hrec : (shutdownAll (n :: rest)).2 =
        [Effect.hookShutdown n.id, Effect.dbNodeState n.id .OFFLINE] ++
          (shutdownAll rest).2 := rfl
    rcases List.mem_cons.mp hm with h | h
    · subst h
      rw [hrec]
      exact ⟨by simp, by simp⟩
    · have hr := ih h
      rw [hrec]
      exact ⟨List.mem_append_right _ hr.1, List.mem_append_right _ hr.2⟩

/-- C1: the claim states that before step i the worker computes the
unreachable set over indices j ≥ i with the predicate `is_usable()`.  The
source instead filters `steps[self._current_step:]` (still the previous
index, -1 before step 0, so only the last step) by `is_reachable()` alone.
On a workflow whose second node is reachable but in the ERROR state
(`is_usable() = false`), the spec set before step 0 is {"b"}, yet the code
finds nothing unreachable, executes both steps and finishes FINISHED. -/
theorem c1_unreachable_check_diverges :
    nodeBerr.is_usable = false ∧
    specUnreachableIds taskT1.workflow.steps 0 = ["b"] ∧
    taskT1.anyUnreachableNode = (false, []) ∧
    (taskT1.runMain 10 []).1 = .ret 0 ∧
    (taskT1.runMain 10 []).2.1.state = .FINISHED ∧
    (taskT1.runMain 10 []).2.2.1 = [0, 1] := by decide

/-- C2: `pause_execution()` never pauses a task.  Its first statement calls
`self.set_paused()`, whose body refers to `DBTask.set_paused` (a classmethod
that src/database/tasks.py does not define) and to `TaskState.PAUSED` (a
member absent from the TaskState enum of src/task/enums.py), so it raises
AttributeError before any state change, and never returns 0. -/
theorem c2_pause_execution_raises (t : Task) :
    t.pauseExecution = .error (.attributeError "DBTask" "set_paused") := rfl

/-- C4: with a worker parked after a step failure, `stop()` indeed sets
`stop_flag` and clears the pause latch, but the worker never wakes: stop()
never notifies `_pause_condition` (its body clears `_pause_event` twice
instead), so `_run` stays blocked in `wait()` and never returns — the task
never exits and the thread is not joinable, contrary to the claim. -/
theorem c4_stop_leaves_worker_parked :
    (taskT4.runMain 10 [.opStop]).1 = .parkedForever ∧
    (taskT4.runMain 10 [.opStop]).2.1.stopFlag = true ∧
    (taskT4.runMain 10 [.opStop]).2.1.pauseEvent = false ∧
    (taskT4.runMain 10 [.opStop]).2.1.state = .ERROR := by decide

/-- C5 counterexample: shutdown() does not assign the in-memory node state;
a node that was AVAILABLE is still AVAILABLE (not OFFLINE) after shutdown. -/
theorem c5_counterexample :
    ((mkNode "a" "A").shutdown).1.state ≠ NodeState.OFFLINE ∧
    ((mkNode "a" "A").shutdown).1.state = NodeState.AVAILABLE := by decide

/-- C5 amended: shutdown() invokes the user-supplied shutdown hook and then
unconditionally persists OFFLINE as the node's database state, leaving the
in-memory state field unchanged; after Orchestrator.stop() returns, the
hook has run and OFFLINE has been persisted for every node that was
registered, the registries are cleared and the orchestrator is STOPPED. -/
theorem c5_shutdown_persists_offline (n : Node) (o : Orchestrator)
    (h : o.state ≠ .STOPPED) :
    (n.shutdown).2 = [.hookShutdown n.id, .dbNodeState n.id .OFFLINE] ∧
    (n.shutdown).1.state = n.state ∧
    (o.stop).1 = .OK ∧
    (o.stop).2.1.nodes = [] ∧
    (o.stop).2.1.workflows = [] ∧
    (o.stop).2.1.state = .STOPPED ∧
    ∀ m ∈ o.nodes, Effect.hookShutdown m.id ∈ (o.stop).2.2 ∧
      Effect.dbNodeState m.id .OFFLINE ∈ (o.stop).2.2 := by
  have hb : (o.state == OrchestratorState.STOPPED) = false := by
    simpa using h
  refine ⟨rfl, rfl, ?_, ?_, ?_, ?_, ?_⟩ <;>
    simp only [Orchestrator.stop, hb, Bool.false_eq_true, if_false]
  · intro m hm
    exact shutdownAll_mem hm

/-- C5 witness: the amended statement at a running orchestrator owning one
node. -/
theorem c5_witness :
    ((mkNode "a" "A").shutdown).2 =
      [.hookShutdown "a", .dbNodeState "a" .OFFLINE] ∧
    (oRun.stop).2.1.state = .STOPPED ∧
    Effect.dbNodeState "a" .OFFLINE ∈ (oRun.stop).2.2 := by
  have h := c5_shutdown_persists_offline (mkNode "a" "A") oRun (by decide)
  refine ⟨h.1, h.2.2.2.2.2.1, ?_⟩
  exact (h.2.2.2.2.2.2 (mkNode "a" "A") (by decide)).2

/-- C6 counterexample: with the orchestrator STOPPED and the database check
failing, start() returns DATABASE_CONNECTION_REFUSED but the state stays
STOPPED — it does not transition to ERROR as the claim says. -/
theorem c6_counterexample :
    (Orchestrator.start default false nfOk wfFacOk).1 =
      .DATABASE_CONNECTION_REFUSED ∧
    (Orchestrator.start default false nfOk wfFacOk).2.state = .STOPPED := by decide

/-- C6 amended: if start() is called while RUNNING it returns CANCELLED and
changes nothing; on database-check failure it returns
DATABASE_CONNECTION_REFUSED leaving the orchestrator state unchanged (only
the terminate event has been cleared); on load_config failure it returns
that code with state ERROR; otherwise it returns OK with state RUNNING. -/
theorem c6_start_failure_paths (o : Orchestrator) (dbc : Bool)
    (nf : FactoryResult Node) (wf : FactoryResult Workflow) :
    (o.state = .RUNNING → o.start dbc nf wf = (.CANCELLED, o)) ∧
    (o.state ≠ .RUNNING → dbc = false →
      (o.start dbc nf wf).1 = .DATABASE_CONNECTION_REFUSED ∧
      (o.start dbc nf wf).2 = { o with terminateEvent := false }) ∧
    (o.state ≠ .RUNNING → dbc = true → nf.code ≠ .OK →
      (o.start dbc nf wf).1 = nf.code ∧ (o.start dbc nf wf).2.state = .ERROR) ∧
    (o.state ≠ .RUNNING → dbc = true → nf.code = .OK → wf.code ≠ .OK →
      (o.start dbc nf wf).1 = wf.code ∧ (o.start dbc nf wf).2.state = .ERROR) ∧
    (o.state ≠ .RUNNING → dbc = true → nf.code = .OK → wf.code = .OK →
      (o.start dbc nf wf).1 = .OK ∧ (o.start dbc nf wf).2.state = .RUNNING) := by
  refine ⟨?_, ?_, ?_, ?_, ?_⟩
  · intro h
    simp [Orchestrator.start, h]
  · intro h hdb
    subst hdb
    have hb : (o.state == OrchestratorState.RUNNING) = false := by simpa using h
    simp [Orchestrator.start, hb]
  · intro h hdb hnf
    subst hdb
    have hb : (o.state == OrchestratorState.RUNNING) = false := by simpa using h
    have hnfb : (nf.code == OrchestratorErrorCodes.OK) = false := by simpa using hnf
    simp [Orchestrator.start, Orchestrator.loadConfig, Orchestrator.setErrorState, hb, hnfb, hnf]
  · intro h hdb hnf hwf
    subst hdb
    have hb : (o.state == OrchestratorState.RUNNING) = false := by simpa using h
    have hwfb : (wf.code == OrchestratorErrorCodes.OK) = false := by simpa using hwf
    simp [Orchestrator.start, Orchestrator.loadConfig, Orchestrator.setErrorState, hb, hnf, hwfb, hwf]
  · intro h hdb hnf hwf
    subst hdb
    have hb : (o.state == OrchestratorState.RUNNING) = false := by simpa using h
    simp [Orchestrator.start, Orchestrator.loadConfig, Orchestrator.setErrorState, hb, hnf, hwf]

/-- C6 witness: the amended statement on a stopped orchestrator with a
connected database and succeeding factories, and on the failing-database
case. -/
theorem c6_witness :
    ((Orchestrator.start default true nfOk wfFacOk).1 = .OK ∧
     (Orchestrator.start default true nfOk wfFacOk).2.state = .RUNNING) ∧
    (Orchestrator.start default false nfOk wfFacOk).2 =
      { (default : Orchestrator) with terminateEvent := false } := by
  refine ⟨(c6_start_failure_paths default true nfOk wfFacOk).2.2.2.2
            (by decide) rfl (by decide) (by decide), ?_⟩
  exact ((c6_start_failure_paths default false nfOk wfFacOk).2.1 (by decide) rfl).2

/-- C9: cancellation requested before the worker enters run() is lost:
run() unconditionally resets stop_flag to False first, so a task that was
stopped beforehand (its pause latch still clear, as for any task that has
not yet parked) runs exactly as if stop had never been called. -/
theorem c9_stop_before_run_lost (t : Task) (fuel : Nat) (sched : List OpEvent)
    (h : t.pauseEvent = false) :
    (t.stop).runMain fuel sched = t.runMain fuel sched := by
  cases t
  simp only at h
  subst h
  rfl

/-- C9 witness: the stopped and unstopped runs coincide on a concrete
two-step task. -/
theorem c9_witness :
    (taskHappy.stop).runMain 5 [] = taskHappy.runMain 5 [] :=
  c9_stop_before_run_lost taskHappy 5 [] rfl

/-- C10 counterexample: an orchestrator still holding a previous
configuration, whose node factory appends one node and then fails: the
returned code is not OK, yet the node list is not empty (it holds the
partially loaded node) and the workflow list still holds the previous
configuration — not discarded. -/
theorem c10_counterexample :
    (oPrev.loadConfig nfFail wfFacOk).1 ≠ .OK ∧
    (oPrev.loadConfig nfFail wfFacOk).2.nodes ≠ [] ∧
    (oPrev.loadConfig nfFail wfFacOk).2.workflows = oPrev.workflows ∧
    oPrev.workflows ≠ [] := by decide

/-- C10 amended: load_config clears the node list before invoking the node
factory and clears the workflow list before invoking the workflow factory;
on node-factory failure the node list holds exactly what the factory
produced (possibly non-empty) while the workflow list is untouched (still
the previous configuration); on workflow-factory failure both lists hold
the partial load; every non-OK return leaves the orchestrator in ERROR. -/
theorem c10_load_config_not_atomic (o : Orchestrator)
    (nf : FactoryResult Node) (wf : FactoryResult Workflow) :
    (nf.code ≠ .OK →
      (o.loadConfig nf wf).1 = nf.code ∧
      (o.loadConfig nf wf).2.nodes = nf.items ∧
      (o.loadConfig nf wf).2.workflows = o.workflows ∧
      (o.loadConfig nf wf).2.state = .ERROR) ∧
    (nf.code = .OK → wf.code ≠ .OK →
      (o.loadConfig nf wf).1 = wf.code ∧
      (o.loadConfig nf wf).2.nodes = nf.items ∧
      (o.loadConfig nf wf).2.workflows = wf.items ∧
      (o.loadConfig nf wf).2.state = .ERROR) ∧
    (nf.code = .OK → wf.code = .OK →
      (o.loadConfig nf wf).1 = .OK ∧
      (o.loadConfig nf wf).2.nodes = nf.items ∧
      (o.loadConfig nf wf).2.workflows = wf.items ∧
      (o.loadConfig nf wf).2.state = o.state) := by
  refine ⟨?_, ?_, ?_⟩
  · intro hnf
    simp [Orchestrator.loadConfig, Orchestrator.setErrorState, hnf]
  · intro hnf hwf
    simp [Orchestrator.loadConfig, Orchestrator.setErrorState, hnf, hwf]
  · intro hnf hwf
    simp [Orchestrator.loadConfig, hnf, hwf]

/-- C10 witness: the amended statement at the node-factory-failure input of
the counterexample. -/
theorem c10_witness :
    (oPrev.loadConfig nfFail wfFacOk).1 = .COULD_NOT_PARSE_CONFIGURATION ∧
    (oPrev.loadConfig nfFail wfFacOk).2.nodes = nfFail.items ∧
    (oPrev.loadConfig nfFail wfFacOk).2.workflows = oPrev.workflows ∧
    (oPrev.loadConfig nfFail wfFacOk).2.state = .ERROR :=
  (c10_load_config_not_atomic oPrev nfFail wfFacOk).1 (by decide)

end Glas

namespace Glas

theorem restart_restarts (n : Node) : (n.restart).2.1.restarts = n.restarts + 1 := by
  simp only [Node.restart]
  split <;> rfl

theorem restart_no_notify (n : Node) : Effect.notifyCond ∉ (n.restart).2.2 := by
  simp only [Node.restart]
  intro hmem
  simp at hmem

theorem restartSteps_no_notify (ns : List Node) :
    Effect.notifyCond ∉ (restartSteps ns).2.2 := by
  induction ns with
  | nil => simp [restartSteps]
  | cons n rest ih =>
    simp only [restartSteps]
    split
    · split
      · exact restart_no_notify n
      · intro hmem
        rcases List.mem_append.mp hmem with h | h
        · exact restart_no_notify n h
        · exact ih h
    · exact ih

theorem restartSteps_some_ne_zero (ns : List Node) (s : Int)
    (h : (restartSteps ns).2.1 = some s) : s ≠ 0 := by
  induction ns with
  | nil => simp [restartSteps] at h
  | cons n rest ih =>
    simp only [restartSteps] at h
    split at h
    · split at h
      case isTrue hs =>
        simp only at h
        cases h
        simpa using hs
      case isFalse hs => exact ih h
    · exact ih h

theorem restartSteps_none_forall (ns : List Node)
    (h : (restartSteps ns).2.1 = none) :
    List.Forall₂ RestartedRel ns (restartSteps ns).1 := by
  induction ns with
  | nil => simp [restartSteps]
  | cons n rest ih =>
    by_cases hin : n.state = NodeState.ERROR ∨ n.state = NodeState.RECOVERY
    · by_cases hs : n.restart.1 ≠ 0
      · simp only [restartSteps, if_pos hin, if_pos hs] at h
        exact Option.noConfusion h
      · simp only [restartSteps, if_pos hin, if_neg hs] at h ⊢
        exact List.Forall₂.cons ⟨fun _ => restart_restarts n, fun hc => absurd hin hc⟩ (ih h)
    · simp only [restartSteps, if_neg hin] at h ⊢
      exact List.Forall₂.cons ⟨fun hc => absurd hc hin, fun _ => rfl⟩ (ih h)

/-- C7: when the user action returns a non-zero status, `execute` sets the
node state to ERROR, persists it, inserts exactly one NodeCallRecord with
outcome "error" and none with outcome "success", writes no
ExecutionRecord other than the "w. acc." gate-wait sample (in particular no
success-labelled one), clears the current task id, releases the gate last,
and returns the `(status, message)` pair of the action. -/
theorem c7_execute_error_path (n : Node) (tid : String) (wfId : Int)
    (h : (n.results.headD (0, none, none)).1 ≠ 0) :
    (n.execute tid wfId).1 =
      ((n.results.headD (0, none, none)).1, (n.results.headD (0, none, none)).2.1) ∧
    (n.execute tid wfId).2.1.state = .ERROR ∧
    (n.execute tid wfId).2.1.taskId = none ∧
    Effect.dbNodeState n.id .ERROR ∈ (n.execute tid wfId).2.2 ∧
    ((n.execute tid wfId).2.2.filter (isCallRecord "error")).length = 1 ∧
    ((n.execute tid wfId).2.2.filter (isCallRecord "success")).length = 0 ∧
    ((n.execute tid wfId).2.2.filter isExecRecordEff) =
      [.execRecord tid wfId "w. acc."] ∧
    (n.execute tid wfId).2.2.getLast? = some (.gateRelease n.id) := by
  have h' : (n.results.head?.getD (0, none, none)).1 ≠ 0 := by
    simpa [List.headD_eq_head?_getD] using h
  simp [Node.execute, h', isCallRecord, isExecRecordEff]

/-- C7 witness: the error-path contract on a node whose action fails with
status 42. -/
theorem c7_witness :
    (nodeBFail.execute "t" 1).1 = (42, some "jam") ∧
    (nodeBFail.execute "t" 1).2.1.state = .ERROR ∧
    (nodeBFail.execute "t" 1).2.1.taskId = none ∧
    ((nodeBFail.execute "t" 1).2.2.filter (isCallRecord "error")).length = 1 ∧
    ((nodeBFail.execute "t" 1).2.2.filter (isCallRecord "success")).length = 0 :=
  have h := c7_execute_error_path nodeBFail "t" 1 (by decide)
  ⟨h.1, h.2.1, h.2.2.1, h.2.2.2.2.1, h.2.2.2.2.2.1⟩

/-- C8: continue_execution restarts exactly the steps whose node state is
ERROR or RECOVERY; when every such restart succeeds it sets the task state
to ACTIVE, clears the pause latch and notifies the condition; when a
restart fails it returns that non-zero status with the task state and
latch unchanged and no notification. -/
theorem c8_continue_restart_loop (t : Task) :
    ((t.continueExecution).1 = 0 →
      (t.continueExecution).2.1.state = .ACTIVE ∧
      (t.continueExecution).2.1.pauseEvent = false ∧
      Effect.notifyCond ∈ (t.continueExecution).2.2 ∧
      List.Forall₂ RestartedRel t.workflow.steps
        (t.continueExecution).2.1.workflow.steps) ∧
    ((t.continueExecution).1 ≠ 0 →
      (t.continueExecution).2.1.state = t.state ∧
      (t.continueExecution).2.1.pauseEvent = t.pauseEvent ∧
      Effect.notifyCond ∉ (t.continueExecution).2.2) := by
  rcases hr : (restartSteps t.workflow.steps).2.1 with _ | s
  · constructor
    · intro _
      refine ⟨?_, ?_, ?_, ?_⟩ <;>
        simp [Task.continueExecution, hr, Task.setActive, restartSteps_none_forall _ hr]
    · intro hne
      exact absurd (by simp [Task.continueExecution, hr, Task.setActive]) hne
  · have hs := restartSteps_some_ne_zero _ _ hr
    constructor
    · intro hz
      have : (t.continueExecution).1 = s := by simp [Task.continueExecution, hr]
      rw [this] at hz
      exact absurd hz hs
    · intro _
      refine ⟨?_, ?_, ?_⟩ <;> simp [Task.continueExecution, hr]
      exact restartSteps_no_notify _

/-- C8 witness: the success branch on a parked task with one ERROR node
that restarts cleanly, and the failure branch on a parked task whose ERROR
node refuses to restart (the task stays parked in its previous state). -/
theorem c8_witness :
    ((taskT8.continueExecution).2.1.state = .ACTIVE ∧
     (taskT8.continueExecution).2.1.pauseEvent = false ∧
     Effect.notifyCond ∈ (taskT8.continueExecution).2.2) ∧
    ((taskT9.continueExecution).2.1.state = taskT9.state ∧
     (taskT9.continueExecution).2.1.pauseEvent = taskT9.pauseEvent ∧
     Effect.notifyCond ∉ (taskT9.continueExecution).2.2) :=
  have h8 := (c8_continue_restart_loop taskT8).1 (by decide)
  have h9 := (c8_continue_restart_loop taskT9).2 (by decide)
  ⟨⟨h8.1, h8.2.1, h8.2.2.1⟩, h9⟩

end Glas

namespace Glas

theorem policy_val_le_one (p : NodeErrorNextStep) : p.val ≤ 1 := by
  cases p <;> simp [NodeErrorNextStep.val]

theorem execute_status (n : Node) (tid : String) (wfId : Int) (sv : Bool) :
    ((n.execute tid wfId sv).1).1 = (n.results.headD (0, none, none)).1 := by
  simp only [Node.execute]
  split
  · rfl
  case isFalse hs =>
    have h0 : (n.results.headD (0, none, none)).1 = 0 := by simpa using hs
    simpa using h0.symm

theorem execute_results (n : Node) (tid : String) (wfId : Int) (sv : Bool) :
    ((n.execute tid wfId sv).2.1).results = n.results.tail := by
  simp only [Node.execute]
  split <;> rfl

theorem headD_fst_zero (n : Node) (h : ∀ r ∈ n.results, r.1 = 0) :
    (n.results.headD (0, none, none)).1 = 0 := by
  cases hr : n.results with
  | nil => rfl
  | cons a l => exact h a (by simp [hr])

theorem recursionExit_ret_zero (t : Task) (stepId : Nat)
    (h : (t.recursionExit stepId).1 = some 0) :
    t.workflow.steps.length ≤ stepId := by
  simp only [Task.recursionExit, Task.setError] at h
  split_ifs at h with h1 h2 h3 h4
  all_goals simp_all [EINTR, EHOSTUNREACH]

theorem recursionExit_none_lt (t : Task) (stepId : Nat)
    (h : (t.recursionExit stepId).1 = none) :
    stepId < t.workflow.steps.length := by
  simp only [Task.recursionExit, Task.setError] at h
  split_ifs at h with h1 h2 h3 h4
  all_goals first
  | exact Option.noConfusion h
  | omega

theorem restartSteps_length (ns : List Node) :
    (restartSteps ns).1.length = ns.length := by
  induction ns with
  | nil => rfl
  | cons n rest ih =>
    by_cases hin : n.state = NodeState.ERROR ∨ n.state = NodeState.RECOVERY
    · by_cases hs : n.restart.1 ≠ 0
      · simp [restartSteps, if_pos hin, if_pos hs]
      · simp only [restartSteps, if_pos hin, if_neg hs]
        simpa using ih
    · simp only [restartSteps, if_neg hin]
      simpa using ih

theorem continueExecution_steps_length (t : Task) :
    (t.continueExecution).2.1.workflow.steps.length = t.workflow.steps.length := by
  rcases hr : (restartSteps t.workflow.steps).2.1 with _ | s <;>
    simp [Task.continueExecution, hr, Task.setActive, restartSteps_length]

theorem parkWait_continue_def (t : Task) (rest : List OpEvent) :
    parkWait t (.opContinue :: rest) =
      if (t.continueExecution).1 ≠ 0 then
        ((parkWait (t.continueExecution).2.1 rest).1,
         (parkWait (t.continueExecution).2.1 rest).2.1,
         (parkWait (t.continueExecution).2.1 rest).2.2.1,
         (t.continueExecution).2.2 ++ (parkWait (t.continueExecution).2.1 rest).2.2.2)
      else (true, (t.continueExecution).2.1, rest, (t.continueExecution).2.2) := rfl

theorem parkWait_steps_length (t : Task) (sched : List OpEvent) :
    (parkWait t sched).2.1.workflow.steps.length = t.workflow.steps.length := by
  induction sched generalizing t with
  | nil => rfl
  | cons e rest ih =>
    cases e with
    | opStop => exact ih t.stop
    | opContinue =>
      rw [parkWait_continue_def]
      by_cases hc : (t.continueExecution).1 ≠ 0
      · rw [if_pos hc]
        exact (ih _).trans (continueExecution_steps_length t)
      · rw [if_neg hc]
        exact continueExecution_steps_length t

theorem parkWait_pauseEvent_of_woke (t : Task) (sched : List OpEvent)
    (h : (parkWait t sched).1 = true) :
    (parkWait t sched).2.1.pauseEvent = false := by
  induction sched generalizing t with
  | nil => exact Bool.noConfusion h
  | cons e rest ih =>
    cases e with
    | opStop => exact ih t.stop h
    | opContinue =>
      rw [parkWait_continue_def] at h ⊢
      by_cases hc : (t.continueExecution).1 ≠ 0
      · rw [if_pos hc] at h ⊢
        exact ih _ h
      · rw [if_neg hc] at h ⊢
        push_neg at hc
        rcases hr : (restartSteps t.workflow.steps).2.1 with _ | s
        · simp [Task.continueExecution, hr, Task.setActive]
        · have hs := restartSteps_some_ne_zero _ _ hr
          have h1 : (t.continueExecution).1 = s := by simp [Task.continueExecution, hr]
          rw [h1] at hc
          exact absurd hc hs

end Glas

namespace Glas

theorem runAux_succ_def (fuel : Nat) (t : Task) (stepId : Nat) (sched : List OpEvent) :
    Task.runAux (fuel + 1) t stepId sched =
      (match (t.recursionExit stepId).1 with
       | some code =>
         ((.ret code : RunOutcome), (t.recursionExit stepId).2.1, sched, ([] : List Nat),
           (t.recursionExit stepId).2.2)
       | none =>
         let cur := t.workflow.steps.getD stepId default
         let ex := cur.execute t.uuid t.workflow.id true
         let cur1 := ex.2.1
         let effStep : List Effect := Effect.dbUpdateActiveStep t.uuid cur.id :: ex.2.2
         let t3 : Task :=
           { t with currentStep := (stepId : Int),
                    workflow := { t.workflow with steps := t.workflow.steps.set stepId cur1 } }
         let t4 : Task :=
           if ex.1.1 ≠ 0 then { t3 with state := .ERROR, pauseEvent := true } else t3
         let effErr : List Effect := if ex.1.1 ≠ 0 then [.dbTaskSetError t.uuid] else []
         if t4.pauseEvent then
           let pw := parkWait t4 sched
           if pw.1 then
             let rec1 := Task.runAux fuel pw.2.1 (stepId + cur1.policy.val) pw.2.2.1
             (rec1.1, rec1.2.1, rec1.2.2.1, stepId :: rec1.2.2.2.1,
               effStep ++ effErr ++ pw.2.2.2 ++ rec1.2.2.2.2)
           else
             (.parkedForever, pw.2.1, pw.2.2.1, [stepId], effStep ++ effErr ++ pw.2.2.2)
         else
           let rec1 := Task.runAux fuel t4 (stepId + 1) sched
           (rec1.1, rec1.2.1, rec1.2.2.1, stepId :: rec1.2.2.2.1,
             effStep ++ effErr ++ rec1.2.2.2.2)) := rfl

theorem runAux_ret_zero_trace (fuel : Nat) :
    ∀ (t : Task) (stepId : Nat) (sched : List OpEvent),
      (Task.runAux fuel t stepId sched).1 = .ret 0 →
      (∀ k, stepId ≤ k → k < t.workflow.steps.length →
          k ∈ (Task.runAux fuel t stepId sched).2.2.2.1) ∧
      ((Task.runAux fuel t stepId sched).2.2.2.1 = [] ∨
          (Task.runAux fuel t stepId sched).2.2.2.1.head? = some stepId) ∧
      List.Chain' (fun a b => b = a ∨ b = a + 1)
        (Task.runAux fuel t stepId sched).2.2.2.1 := by
  induction fuel with
  | zero =>
    intro t stepId sched h
    exact absurd h (by simp [Task.runAux])
  | succ fuel ih =>
    intro t stepId sched h
    rcases hre : (t.recursionExit stepId).1 with _ | code
    · rw [runAux_succ_def, hre] at h ⊢
      dsimp only at h ⊢
      by_cases hs : ((t.workflow.steps.getD stepId default).execute t.uuid t.workflow.id true).1.1 ≠ 0
      · rw [if_pos hs] at h ⊢
        dsimp only at h ⊢
        rw [if_pos rfl] at h ⊢
        by_cases hw : (parkWait
            { t with
              workflow := { t.workflow with steps := t.workflow.steps.set stepId ((t.workflow.steps.getD stepId default).execute t.uuid t.workflow.id true).2.1 },
              state := TaskState.ERROR, currentStep := (stepId : Int),
              pauseEvent := true } sched).1 = true
        · rw [if_pos hw] at h ⊢
          dsimp only at h ⊢
          obtain ⟨hcov, hhead, hchain⟩ := ih _ _ _ h
          rw [parkWait_steps_length] at hcov
          simp only [List.length_set] at hcov
          refine ⟨?_, Or.inr rfl, ?_⟩
          · intro k hk1 hk2
            rcases Nat.eq_or_lt_of_le hk1 with hk | hk
            · exact hk ▸ List.mem_cons_self _ _
            · refine List.mem_cons_of_mem _ (hcov k ?_ hk2)
              have hpol := policy_val_le_one
                ((t.workflow.steps.getD stepId default).execute t.uuid t.workflow.id true).2.1.policy
              omega
          · refine List.chain'_cons'.mpr ⟨?_, hchain⟩
            intro y hy
            rcases hhead with h0 | h0
            · rw [h0] at hy
              exact absurd hy (by simp)
            · rw [h0] at hy
              simp only [Option.mem_some_iff] at hy
              subst hy
              rcases hpol : ((t.workflow.steps.getD stepId default).execute
                  t.uuid t.workflow.id true).2.1.policy with _ | _ <;>
                simp [NodeErrorNextStep.val]
        · rw [if_neg hw] at h ⊢
          dsimp only at h
          exact RunOutcome.noConfusion h
      · rw [if_neg hs] at h ⊢
        dsimp only at h ⊢
        by_cases hp : t.pauseEvent = true
        · rw [if_pos hp] at h ⊢
          by_cases hw : (parkWait
              { t with
                workflow := { t.workflow with steps := t.workflow.steps.set stepId ((t.workflow.steps.getD stepId default).execute t.uuid t.workflow.id true).2.1 },
                currentStep := (stepId : Int) } sched).1 = true
          · rw [if_pos hw] at h ⊢
            dsimp only at h ⊢
            obtain ⟨hcov, hhead, hchain⟩ := ih _ _ _ h
            rw [parkWait_steps_length] at hcov
            simp only [List.length_set] at hcov
            refine ⟨?_, Or.inr rfl, ?_⟩
            · intro k hk1 hk2
              rcases Nat.eq_or_lt_of_le hk1 with hk | hk
              · exact hk ▸ List.mem_cons_self _ _
              · refine List.mem_cons_of_mem _ (hcov k ?_ hk2)
                have hpol := policy_val_le_one
                  ((t.workflow.steps.getD stepId default).execute t.uuid t.workflow.id true).2.1.policy
                omega
            · refine List.chain'_cons'.mpr ⟨?_, hchain⟩
              intro y hy
              rcases hhead with h0 | h0
              · rw [h0] at hy
                exact absurd hy (by simp)
              · rw [h0] at hy
                simp only [Option.mem_some_iff] at hy
                subst hy
                rcases hpol : ((t.workflow.steps.getD stepId default).execute
                    t.uuid t.workflow.id true).2.1.policy with _ | _ <;>
                  simp [NodeErrorNextStep.val]
          · rw [if_neg hw] at h ⊢
            dsimp only at h
            exact RunOutcome.noConfusion h
        · rw [if_neg hp] at h ⊢
          obtain ⟨hcov, hhead, hchain⟩ := ih _ _ _ h
          simp only [List.length_set] at hcov
          refine ⟨?_, Or.inr rfl, ?_⟩
          · intro k hk1 hk2
            rcases Nat.eq_or_lt_of_le hk1 with hk | hk
            · exact hk ▸ List.mem_cons_self _ _
            · exact List.mem_cons_of_mem _ (hcov k (by omega) hk2)
          · refine List.chain'_cons'.mpr ⟨?_, hchain⟩
            intro y hy
            rcases hhead with h0 | h0
            · rw [h0] at hy
              exact absurd hy (by simp)
            · rw [h0] at hy
              simp only [Option.mem_some_iff] at hy
              subst hy
              exact Or.inr rfl
    · rw [runAux_succ_def, hre] at h ⊢
      dsimp only at h ⊢
      have hc0 : code = 0 := by cases h; rfl
      subst hc0
      have hlen := recursionExit_ret_zero t stepId hre
      exact ⟨fun k hk1 hk2 => absurd hk2 (by omega), Or.inl rfl, List.chain'_nil⟩

end Glas

namespace Glas

theorem runAux_all_success_trace (fuel : Nat) :
    ∀ (t : Task) (stepId : Nat) (sched : List OpEvent),
      (∀ n ∈ t.workflow.steps, ∀ r ∈ n.results, r.1 = 0) →
      t.pauseEvent = false →
      (Task.runAux fuel t stepId sched).1 = .ret 0 →
      (Task.runAux fuel t stepId sched).2.2.2.1 =
        List.range' stepId (t.workflow.steps.length - stepId) := by
  induction fuel with
  | zero =>
    intro t stepId sched _ _ h
    exact absurd h (by simp [Task.runAux])
  | succ fuel ih =>
    intro t stepId sched hall hpe h
    rcases hre : (t.recursionExit stepId).1 with _ | code
    · have hlt := recursionExit_none_lt t stepId hre
      rw [runAux_succ_def, hre] at h ⊢
      dsimp only at h ⊢
      have hcur : t.workflow.steps.getD stepId default ∈ t.workflow.steps := by
        rw [List.getD_eq_getElem _ _ hlt]
        exact List.getElem_mem _
      have hst : ((t.workflow.steps.getD stepId default).execute
          t.uuid t.workflow.id true).1.1 = 0 := by
        rw [execute_status]
        exact headD_fst_zero _ (hall _ hcur)
      have hs : ¬(((t.workflow.steps.getD stepId default).execute
          t.uuid t.workflow.id true).1.1 ≠ 0) := fun hne => hne hst
      rw [if_neg hs] at h ⊢
      dsimp only at h ⊢
      rw [if_neg (by simp [hpe])] at h ⊢
      have hall4 : ∀ n ∈ ({ t with currentStep := (stepId : Int), workflow := { t.workflow with steps := t.workflow.steps.set stepId ((t.workflow.steps.getD stepId default).execute t.uuid t.workflow.id true).2.1 } } : Task).workflow.steps, ∀ r ∈ n.results, r.1 = 0 := by
        intro n hn r hr
        rcases List.mem_or_eq_of_mem_set hn with hn' | hn'
        · exact hall n hn' r hr
        · subst hn'
          rw [execute_results] at hr
          exact hall _ hcur r (List.mem_of_mem_tail hr)
      have h4 := ih _ _ _ hall4 hpe h
      rw [h4]
      simp only [List.length_set]
      rw [show t.workflow.steps.length - stepId =
        (t.workflow.steps.length - (stepId + 1)) + 1 by omega]
      rw [List.range'_succ]
    · rw [runAux_succ_def, hre] at h ⊢
      dsimp only at h ⊢
      have hc0 : code = 0 := by cases h; rfl
      subst hc0
      have hlen := recursionExit_ret_zero t stepId hre
      rw [show t.workflow.steps.length - stepId = 0 by omega]
      rfl

theorem runMain_proj (t : Task) (fuel : Nat) (sched : List OpEvent) :
    (t.runMain fuel sched).1 =
      (Task.runAux fuel ((({ t with stopFlag := false } : Task).setPending).setActive).1
        0 sched).1 ∧
    (t.runMain fuel sched).2.2.1 =
      (Task.runAux fuel ((({ t with stopFlag := false } : Task).setPending).setActive).1
        0 sched).2.2.2.1 := by
  rcases hr : (Task.runAux fuel ((({ t with stopFlag := false } : Task).setPending).setActive).1
      0 sched).1 with code | _ | _
  · by_cases hc : code = 0
    · subst hc
      constructor <;> simp [Task.runMain, hr, Task.setFinished]
    · constructor <;> simp [Task.runMain, hr, hc]
  · constructor <;> simp [Task.runMain, hr]
  · constructor <;> simp [Task.runMain, hr]

theorem runMain_state_finished (t : Task) (fuel : Nat) (sched : List OpEvent)
    (h : (Task.runAux fuel ((({ t with stopFlag := false } : Task).setPending).setActive).1
        0 sched).1 = .ret 0) :
    (t.runMain fuel sched).2.1.state = .FINISHED := by
  simp [Task.runMain, h, Task.setFinished]

/-- C3 (amended): a task whose run returns 0 (and is hence FINISHED) has
invoked `execute` on every step of its workflow at least once, with the
invoked indices forming a walk that only stays or advances by one; if no
step invocation fails (and the latch was clear), every step is invoked
exactly once, in index order. -/
theorem c3_finished_all_steps (t : Task) (fuel : Nat) (sched : List OpEvent)
    (h : (t.runMain fuel sched).1 = .ret 0) :
    (t.runMain fuel sched).2.1.state = .FINISHED ∧
    (∀ k, k < t.workflow.steps.length → k ∈ (t.runMain fuel sched).2.2.1) ∧
    List.Chain' (fun a b => b = a ∨ b = a + 1) (t.runMain fuel sched).2.2.1 ∧
    ((∀ n ∈ t.workflow.steps, ∀ r ∈ n.results, r.1 = 0) → t.pauseEvent = false →
      (t.runMain fuel sched).2.2.1 = List.range t.workflow.steps.length) := by
  obtain ⟨hfst, htr⟩ := runMain_proj t fuel sched
  rw [hfst] at h
  refine ⟨runMain_state_finished t fuel sched h, ?_, ?_, ?_⟩
  · intro k hk
    rw [htr]
    obtain ⟨hcov, _, _⟩ := runAux_ret_zero_trace fuel _ 0 sched h
    exact hcov k (Nat.zero_le k) hk
  · rw [htr]
    exact (runAux_ret_zero_trace fuel _ 0 sched h).2.2
  · intro hall hpe
    rw [htr]
    rw [runAux_all_success_trace fuel
      ((({ t with stopFlag := false } : Task).setPending).setActive).1 0 sched hall hpe h]
    simp [Task.setActive, Task.setPending, List.range_eq_range']

/-- C3 counterexample: a two-step workflow whose second node fails once
with recovery policy SELF; after the operator continues, the task reruns
step 1, terminates FINISHED, and its invocation trace is [0, 1, 1] — step 1
was invoked twice, refuting "exactly once". -/
theorem c3_counterexample :
    (taskT3.runMain 10 [.opContinue]).1 = .ret 0 ∧
    (taskT3.runMain 10 [.opContinue]).2.1.state = .FINISHED ∧
    (taskT3.runMain 10 [.opContinue]).2.2.1 = [0, 1, 1] ∧
    (taskT3.runMain 10 [.opContinue]).2.2.1.count 1 ≠ 1 := by decide

/-- C3 witness: the amended statement on a two-step task whose steps all
succeed: every index is invoked, and the trace is exactly [0, 1]. -/
theorem c3_witness :
    (∀ k, k < taskHappy.workflow.steps.length → k ∈ (taskHappy.runMain 5 []).2.2.1) ∧
    (taskHappy.runMain 5 []).2.2.1 = List.range taskHappy.workflow.steps.length :=
  have h := c3_finished_all_steps taskHappy 5 [] (by decide)
  ⟨h.2.1, h.2.2.2 (by decide) rfl⟩

end Glas
